import Mathlib

/-!
Shallow embedding of the streaming-response chat core of
`frontend/src/components/ChatInterface.tsx`, together with proofs of the
specification's claims about it.

The embedding models React state as an explicit `ChatState` value, the
network as an explicit `FetchOutcome` input, and `Date.now()` as an
explicit `now : Nat` parameter.  All definitions are translated directly
from the TypeScript source.
-/

/-- Role of a chat message (`role: "user" | "assistant"`). -/
inductive Role where
  | user
  | assistant
deriving DecidableEq, Repr

/-- `interface ChatMessage { role; content }`. -/
structure ChatMessage where
  role : Role
  content : String
deriving DecidableEq, Repr

/-- Toast severity (`type: "error" | "success" | "warning" | "info"`). -/
inductive ToastType where
  | error
  | success
  | warning
  | info
deriving DecidableEq, Repr

/-- `interface Toast { id; message; type }`.  The `type` field is named
`ttype` because `type` is a Lean keyword. -/
structure Toast where
  id : String
  message : String
  ttype : ToastType
deriving DecidableEq, Repr

/-- JS `s.includes(pat)`: `pat` occurs as a contiguous substring of `s`,
decided on the underlying character lists. -/
def containsStr (s pat : String) : Bool :=
  decide (pat.data <:+: s.data)

/-- JS `s.toLowerCase()` for the ASCII patterns matched here, defined
structurally on the character list so that concrete instances
evaluate. -/
def lowerStr (s : String) : String :=
  String.mk (s.data.map Char.toLower)

/-- The raw failure value handed to `parseErrorMessage`: an `Error`
instance, a plain string, or some other value possibly carrying a
`detail` field (`none` models a missing/undefined field). -/
inductive RawError where
  | errObj (message : String)
  | str (s : String)
  | obj (detail : Option String)
deriving DecidableEq, Repr

/-- The `errorString` computed at the top of `parseErrorMessage`:
`error instanceof Error ? error.message : typeof error === 'string' ?
error : (error as { detail?: string })?.detail || "Unknown error
occurred"`.  A missing or empty `detail` is falsy in JS, hence the
fallback string in both cases. -/
def errorText : RawError → String
  | .errObj m => m
  | .str s => s
  | .obj (some d) => if d = "" then "Unknown error occurred" else d
  | .obj none => "Unknown error occurred"

/-- `parseErrorMessage(error, status?)` from `ChatInterface.tsx`:
the seven-branch classifier mapping a raw failure and optional HTTP
status to a user-facing `(message, toast type)` pair. -/
def parseErrorMessage (e : RawError) (status : Option Nat) : String × ToastType :=
  let errorString := errorText e
  let low := lowerStr errorString
  if status == some 401 || containsStr low "unauthorized" || containsStr low "invalid api key" then
    ("Invalid API key. Please check your OpenAI API key and try again.", ToastType.error)
  else if status == some 429 || containsStr low "rate limit" || containsStr low "quota" then
    ("Rate limit exceeded or insufficient quota. Please check your OpenAI account.", ToastType.warning)
  else if status == some 400 || containsStr low "bad request" then
    ("Invalid request. Please check your input and selected model.", ToastType.error)
  else if status == some 404 || containsStr low "not found" then
    ("Model not found. Please select a different model.", ToastType.error)
  else if status == some 500 || containsStr low "internal server error" then
    ("OpenAI service is temporarily unavailable. Please try again later.", ToastType.error)
  else if containsStr low "network" || containsStr low "fetch" then
    ("Network error. Please check your internet connection and try again.", ToastType.error)
  else
    ("Error: " ++ errorString, ToastType.error)

/-- One classification rule of spec section 4.2: an optional triggering
HTTP status, the substrings matched case-insensitively against the
failure's textual content, and the resulting message and severity. -/
structure Rule where
  statusTrigger : Option Nat
  substrings : List String
  message : String
  severity : ToastType

/-- Modelled from the spec: the ordered rule list of section 4.2
(rules 1-6; rule 7 is the default branch of `classifySpec`). -/
def specRules : List Rule :=
  [ { statusTrigger := some 401, substrings := ["unauthorized", "invalid api key"],
      message := "Invalid API key. Please check your OpenAI API key and try again.",
      severity := ToastType.error },
    { statusTrigger := some 429, substrings := ["rate limit", "quota"],
      message := "Rate limit exceeded or insufficient quota. Please check your OpenAI account.",
      severity := ToastType.warning },
    { statusTrigger := some 400, substrings := ["bad request"],
      message := "Invalid request. Please check your input and selected model.",
      severity := ToastType.error },
    { statusTrigger := some 404, substrings := ["not found"],
      message := "Model not found. Please select a different model.",
      severity := ToastType.error },
    { statusTrigger := some 500, substrings := ["internal server error"],
      message := "OpenAI service is temporarily unavailable. Please try again later.",
      severity := ToastType.error },
    { statusTrigger := none, substrings := ["network", "fetch"],
      message := "Network error. Please check your internet connection and try again.",
      severity := ToastType.error } ]

/-- A rule matches when the provided HTTP status equals its trigger, or
one of its substrings occurs (case-insensitively) in the failure text. -/
def ruleMatches (text : String) (status : Option Nat) (r : Rule) : Bool :=
  (match r.statusTrigger with
   | some s => status == some s
   | none => false) ||
  r.substrings.any (fun p => containsStr (lowerStr text) p)

/-- First-match-wins evaluation of a rule list. -/
def applyRules (rules : List Rule) (text : String) (status : Option Nat) :
    Option (String × ToastType) :=
  match rules with
  | [] => none
  | r :: rs =>
    if ruleMatches text status r then some (r.message, r.severity)
    else applyRules rs text status

/-- Modelled from the spec: the Error Classifier of section 4.2 as the
spec words it — the seven precedence rules evaluated in order with first
match winning, falling through to the default
"Error: {original text}" with severity error. -/
def classifySpec (e : RawError) (status : Option Nat) : String × ToastType :=
  (applyRules specRules (errorText e) status).getD
    ("Error: " ++ errorText e, ToastType.error)

/-- Claim C1: for every failure input and optional HTTP status, the
Error Classifier `parseErrorMessage` returns exactly the
(message, severity) pair given by the spec's seven precedence rules,
evaluated in order with first match winning and matching
case-insensitively. -/
theorem parseErrorMessage_eq_classifySpec (e : RawError) (status : Option Nat) :
    parseErrorMessage e status = classifySpec e status := by
  simp only [parseErrorMessage, classifySpec, specRules, applyRules, ruleMatches,
    List.any_cons, List.any_nil, Bool.or_false, Bool.false_or, Bool.or_assoc]
  split_ifs <;> rfl

/-- The JS falsiness test `!s.trim()`: the string trims to the empty
string, i.e. every character is whitespace.  (Defined structurally on
the character list so that concrete instances evaluate.) -/
def isBlank (s : String) : Bool :=
  s.data.all Char.isWhitespace

/-- The component state of `ChatInterface` (the `useState` hooks that the
chat core reads and writes). -/
structure ChatState where
  messages : List ChatMessage
  userMessage : String
  developerMessage : String
  apiKey : String
  model : String
  isLoading : Bool
  error : String
  toasts : List Toast
deriving DecidableEq, Repr

/-- `addToast(message, type)`: appends a toast whose id is
`Date.now().toString()`; the current clock value is the explicit
`now` parameter. -/
def addToast (toasts : List Toast) (now : Nat) (message : String) (ttype : ToastType) :
    List Toast :=
  toasts ++ [{ id := toString now, message := message, ttype := ttype }]

/-- `removeToast(id)`: `prev.filter(toast => toast.id !== id)`. -/
def removeToast (toasts : List Toast) (id : String) : List Toast :=
  toasts.filter (fun t => t.id != id)

/-- The JSON request body sent to `/api/chat`. -/
structure RequestBody where
  developer_message : String
  user_message : String
  model : String
  api_key : String
deriving DecidableEq, Repr

/-- How the read loop over the response stream ends: normal completion
(`done`) or a thrown stream read error. -/
inductive StreamEnd where
  | success
  | failure (e : RawError)
deriving DecidableEq, Repr

/-- The environment's answer to the `fetch` call: a transport-level
throw, a non-2xx response (with status, statusText, and the parsed JSON
body — `none` when `response.json()` throws, otherwise the optional
`detail` string field), or a 2xx response (`hasReader` is whether
`response.body?.getReader()` yielded a reader; the decoded text chunks;
and how the stream ends). -/
inductive FetchOutcome where
  | transportFail (e : RawError)
  | httpError (status : Nat) (statusText : String) (body : Option (Option String))
  | ok (hasReader : Bool) (chunks : List String) (ending : StreamEnd)
deriving DecidableEq, Repr

/-- Concatenation of decoded chunks in arrival order (the value of
`assistantContent` after appending each chunk). -/
def concatChunks : List String → String
  | [] => ""
  | c :: cs => c ++ concatChunks cs

/-- `updated[updated.length - 1] = { ...last, content }`: replace the
content of the last message, keeping its role. -/
def setLastContent (msgs : List ChatMessage) (content : String) : List ChatMessage :=
  match msgs.getLast? with
  | none => msgs
  | some m => msgs.dropLast ++ [{ m with content := content }]

/-- One iteration of the read loop: `assistantContent += chunk` followed
by the `setMessages` update of the trailing assistant message. -/
def streamStep (msgs : List ChatMessage) (acc : String) (chunk : String) :
    List ChatMessage × String :=
  let acc2 := acc ++ chunk
  (setLastContent msgs acc2, acc2)

/-- The whole read loop over a list of chunks: the message list and the
accumulated `assistantContent` after the loop exits. -/
def streamRun (msgs : List ChatMessage) (acc : String) :
    List String → List ChatMessage × String
  | [] => (msgs, acc)
  | c :: cs =>
    let p := streamStep msgs acc c
    streamRun p.1 p.2 cs

/-- The trace of accumulated contents observable after each chunk
(the trailing assistant message's content at each suspension point). -/
def streamTrace (msgs : List ChatMessage) (acc : String) :
    List String → List String
  | [] => []
  | c :: cs =>
    let p := streamStep msgs acc c
    p.2 :: streamTrace p.1 p.2 cs

/-- Content of the last message of the list, if any. -/
def trailingContent (msgs : List ChatMessage) : Option String :=
  msgs.getLast?.map (fun m => m.content)

/-- Result of one `handleSubmit` invocation: the final component state
and the request body issued to `/api/chat` (`none` when validation
rejected the submit before `fetch`). -/
structure SubmitResult where
  state : ChatState
  request : Option RequestBody
deriving DecidableEq, Repr

/-- The value handed to `parseErrorMessage` on a non-2xx response:
`errorData` is the parsed JSON body, falling back to
`{ detail: "HTTP <status>: <statusText>" }` when parsing throws, and the
argument is `errorData.detail || errorData` (the object itself when
`detail` is missing or empty, hence falsy). -/
def httpErrorPayload (status : Nat) (statusText : String) (body : Option (Option String)) :
    RawError :=
  let detail : Option String :=
    match body with
    | none => some ("HTTP " ++ toString status ++ ": " ++ statusText)
    | some d => d
  match detail with
  | some d => if d = "" then RawError.obj (some "") else RawError.str d
  | none => RawError.obj none

/-- `handleSubmit` from `ChatInterface.tsx`, as a function of the
current state, the clock value used for the toast id, and the network's
behaviour for this exchange. -/
def handleSubmit (st : ChatState) (now : Nat) (outcome : FetchOutcome) : SubmitResult :=
  if isBlank st.apiKey then
    { state := { st with toasts := addToast st.toasts now "Please enter your OpenAI API key" ToastType.warning },
      request := none }
  else if isBlank st.userMessage then
    { state := { st with toasts := addToast st.toasts now "Please enter a message" ToastType.warning },
      request := none }
  else
    let req : RequestBody :=
      { developer_message :=
          if st.developerMessage = "" then "You are a helpful assistant." else st.developerMessage,
        user_message := st.userMessage,
        model := st.model,
        api_key := st.apiKey }
    let st1 : ChatState :=
      { st with error := "", isLoading := true,
                messages := st.messages ++ [{ role := Role.user, content := st.userMessage }] }
    match outcome with
    | FetchOutcome.transportFail e =>
      let r := parseErrorMessage e none
      { state := { st1 with toasts := addToast st1.toasts now r.1 r.2, error := r.1,
                            messages := st1.messages.dropLast, isLoading := false },
        request := some req }
    | FetchOutcome.httpError status statusText body =>
      let r := parseErrorMessage (httpErrorPayload status statusText body) (some status)
      { state := { st1 with toasts := addToast st1.toasts now r.1 r.2, error := r.1,
                            messages := st1.messages.dropLast, isLoading := false },
        request := some req }
    | FetchOutcome.ok hasReader chunks ending =>
      let st2 : ChatState :=
        { st1 with messages := st1.messages ++ [{ role := Role.assistant, content := "" }] }
      if hasReader then
        match ending with
        | StreamEnd.success =>
          let run := streamRun st2.messages "" chunks
          let st3 : ChatState := { st2 with messages := run.1 }
          if !isBlank run.2 then
            { state := { st3 with toasts := addToast st3.toasts now "Message sent successfully!" ToastType.success,
                                  userMessage := "", isLoading := false },
              request := some req }
          else
            let r := parseErrorMessage
              (RawError.str "No response received from AI. This usually indicates an invalid API key or authentication issue.")
              (some 401)
            { state := { st3 with toasts := addToast st3.toasts now r.1 r.2, error := r.1,
                                  messages := st3.messages.dropLast, isLoading := false },
              request := some req }
        | StreamEnd.failure e =>
          let run := streamRun st2.messages "" chunks
          let st3 : ChatState := { st2 with messages := run.1 }
          let errorMessage :=
            match e with
            | RawError.errObj m => m
            | RawError.str s => s
            | RawError.obj _ => "[object Object]"
          let low := lowerStr errorMessage
          let finalError : RawError :=
            if containsStr low "connection" || containsStr low "network" || containsStr low "chunk" then
              RawError.str "Connection failed while reading AI response. This usually indicates an invalid API key or authentication issue. Please check your OpenAI API key."
            else e
          let r := parseErrorMessage finalError (some 401)
          { state := { st3 with toasts := addToast st3.toasts now r.1 r.2, error := r.1,
                                messages := st3.messages.dropLast, isLoading := false },
            request := some req }
      else
        { state := { st2 with userMessage := "", isLoading := false },
          request := some req }

/-- The `disabled` condition of the Send button:
`isLoading || !userMessage.trim() || !apiKey.trim()`. -/
def submitDisabled (st : ChatState) : Bool :=
  st.isLoading || isBlank st.userMessage || isBlank st.apiKey

/-- `clearChat()`: empty the message list, clear the error, push an info
toast. -/
def clearChat (st : ChatState) (now : Nat) : ChatState :=
  { st with messages := [], error := "",
            toasts := addToast st.toasts now "Chat cleared" ToastType.info }

theorem setLastContent_concat (l : List ChatMessage) (m : ChatMessage) (c : String) :
    setLastContent (l ++ [m]) c = l ++ [{ m with content := c }] := by
  simp [setLastContent]

theorem streamRun_concat (chunks : List String) :
    ∀ (l : List ChatMessage) (m : ChatMessage) (acc : String),
      streamRun (l ++ [m]) acc chunks =
        (l ++ [{ m with content := if chunks = [] then m.content else acc ++ concatChunks chunks }],
         acc ++ concatChunks chunks) := by
  induction chunks with
  | nil =>
    intro l m acc
    simp [streamRun, concatChunks]
  | cons c cs ih =>
    intro l m acc
    simp only [streamRun, streamStep, setLastContent_concat]
    rw [ih]
    by_cases h : cs = [] <;>
      simp [h, concatChunks, String.append_assoc, String.append_empty]

/-- Specialisation to the empty assistant placeholder appended before
the loop starts: the trailing message's content is always the
concatenation of the chunks seen so far. -/
theorem streamRun_placeholder (chunks : List String) (l : List ChatMessage) :
    streamRun (l ++ [{ role := Role.assistant, content := "" }]) "" chunks =
      (l ++ [{ role := Role.assistant, content := concatChunks chunks }], concatChunks chunks) := by
  rw [streamRun_concat]
  by_cases h : chunks = [] <;> simp [h, concatChunks, String.empty_append]

theorem trailingContent_concat (l : List ChatMessage) (m : ChatMessage) :
    trailingContent (l ++ [m]) = some m.content := by
  simp [trailingContent]

/-- The trace of accumulated contents does not depend on the message
list it is threaded through. -/
theorem streamTrace_msgs_irrel (chunks : List String) :
    ∀ (msgs msgs2 : List ChatMessage) (acc : String),
      streamTrace msgs acc chunks = streamTrace msgs2 acc chunks := by
  induction chunks with
  | nil => intro msgs msgs2 acc; rfl
  | cons c cs ih =>
    intro msgs msgs2 acc
    simp only [streamTrace, streamStep]
    rw [ih (setLastContent msgs (acc ++ c)) (setLastContent msgs2 (acc ++ c))]

/-- Any failure passed to the classifier together with status 401 hits
rule 1, whatever its text. -/
theorem parseErrorMessage_401 (e : RawError) :
    parseErrorMessage e (some 401) =
      ("Invalid API key. Please check your OpenAI API key and try again.", ToastType.error) := by
  simp [parseErrorMessage]

/-- Claim C2: a submit attempt with an empty or whitespace-only API key
or user message issues no HTTP request, leaves the conversation message
list unchanged, and produces exactly one warning notification. -/
theorem submit_validation_reject (st : ChatState) (now : Nat) (outcome : FetchOutcome)
    (h : isBlank st.apiKey = true ∨ isBlank st.userMessage = true) :
    (handleSubmit st now outcome).request = none ∧
    (handleSubmit st now outcome).state.messages = st.messages ∧
    ∃ msg : String,
      (handleSubmit st now outcome).state.toasts =
        st.toasts ++ [{ id := toString now, message := msg, ttype := ToastType.warning }] := by
  by_cases ha : isBlank st.apiKey = true
  · refine ⟨?_, ?_, "Please enter your OpenAI API key", ?_⟩ <;>
      simp [handleSubmit, ha, addToast]
  · have hu : isBlank st.userMessage = true := h.resolve_left ha
    refine ⟨?_, ?_, "Please enter a message", ?_⟩ <;>
      simp [handleSubmit, ha, hu, addToast]

theorem submit_validation_reject_witness :
    (handleSubmit ⟨[{ role := Role.user, content := "old" }], "  ", "", "sk-test", "gpt-4", false, "", []⟩
        3 (FetchOutcome.transportFail (RawError.str "x"))).request = none ∧
    (handleSubmit ⟨[{ role := Role.user, content := "old" }], "  ", "", "sk-test", "gpt-4", false, "", []⟩
        3 (FetchOutcome.transportFail (RawError.str "x"))).state.messages =
      [{ role := Role.user, content := "old" }] ∧
    ∃ msg : String,
      (handleSubmit ⟨[{ role := Role.user, content := "old" }], "  ", "", "sk-test", "gpt-4", false, "", []⟩
          3 (FetchOutcome.transportFail (RawError.str "x"))).state.toasts =
        [] ++ [{ id := toString 3, message := msg, ttype := ToastType.warning }] :=
  submit_validation_reject _ 3 _ (Or.inr (by decide))

/-- Claim C3: on a non-2xx response the just-appended user message is
removed again (the message list equals its pre-submit value), the
pushed notification carries the classifier's result for the derived
error body and status, and the classifier routes 401/429/400/404/500 to
the five documented messages and severities. -/
theorem submit_httpError (st : ChatState) (now : Nat) (status : Nat) (statusText : String)
    (body : Option (Option String))
    (ha : isBlank st.apiKey = false) (hu : isBlank st.userMessage = false) :
    (handleSubmit st now (FetchOutcome.httpError status statusText body)).state.messages =
      st.messages ∧
    (handleSubmit st now (FetchOutcome.httpError status statusText body)).state.toasts =
      st.toasts ++
        [{ id := toString now,
           message := (parseErrorMessage (httpErrorPayload status statusText body) (some status)).1,
           ttype := (parseErrorMessage (httpErrorPayload status statusText body) (some status)).2 }] ∧
    (handleSubmit st now (FetchOutcome.httpError status statusText body)).state.isLoading = false ∧
    (∀ (stx : String) (b : Option (Option String)),
       parseErrorMessage (httpErrorPayload 401 stx b) (some 401) =
         ("Invalid API key. Please check your OpenAI API key and try again.", ToastType.error)) ∧
    parseErrorMessage (httpErrorPayload 429 "Too Many Requests" none) (some 429) =
      ("Rate limit exceeded or insufficient quota. Please check your OpenAI account.",
       ToastType.warning) ∧
    parseErrorMessage (httpErrorPayload 400 "Bad Request" none) (some 400) =
      ("Invalid request. Please check your input and selected model.", ToastType.error) ∧
    parseErrorMessage (httpErrorPayload 404 "Not Found" none) (some 404) =
      ("Model not found. Please select a different model.", ToastType.error) ∧
    parseErrorMessage (httpErrorPayload 500 "Internal Server Error" none) (some 500) =
      ("OpenAI service is temporarily unavailable. Please try again later.", ToastType.error) := by
  refine ⟨?_, ?_, ?_, fun stx b => parseErrorMessage_401 _, by decide, by decide, by decide, by decide⟩ <;>
    simp [handleSubmit, ha, hu, addToast]

theorem submit_httpError_witness :
    (handleSubmit ⟨[], "hi", "", "sk-test", "gpt-4", false, "", []⟩ 5
        (FetchOutcome.httpError 418 "teapot" none)).state.messages = [] ∧
    (handleSubmit ⟨[], "hi", "", "sk-test", "gpt-4", false, "", []⟩ 5
        (FetchOutcome.httpError 418 "teapot" none)).state.toasts =
      [] ++
        [{ id := toString 5,
           message := (parseErrorMessage (httpErrorPayload 418 "teapot" none) (some 418)).1,
           ttype := (parseErrorMessage (httpErrorPayload 418 "teapot" none) (some 418)).2 }] ∧
    (handleSubmit ⟨[], "hi", "", "sk-test", "gpt-4", false, "", []⟩ 5
        (FetchOutcome.httpError 418 "teapot" none)).state.isLoading = false ∧
    (∀ (stx : String) (b : Option (Option String)),
       parseErrorMessage (httpErrorPayload 401 stx b) (some 401) =
         ("Invalid API key. Please check your OpenAI API key and try again.", ToastType.error)) ∧
    parseErrorMessage (httpErrorPayload 429 "Too Many Requests" none) (some 429) =
      ("Rate limit exceeded or insufficient quota. Please check your OpenAI account.",
       ToastType.warning) ∧
    parseErrorMessage (httpErrorPayload 400 "Bad Request" none) (some 400) =
      ("Invalid request. Please check your input and selected model.", ToastType.error) ∧
    parseErrorMessage (httpErrorPayload 404 "Not Found" none) (some 404) =
      ("Model not found. Please select a different model.", ToastType.error) ∧
    parseErrorMessage (httpErrorPayload 500 "Internal Server Error" none) (some 500) =
      ("OpenAI service is temporarily unavailable. Please try again later.", ToastType.error) :=
  submit_httpError ⟨[], "hi", "", "sk-test", "gpt-4", false, "", []⟩ 5 418 "teapot" none
    (by decide) (by decide)

theorem isBlank_empty : isBlank "" = true := rfl

/-- `streamRun_placeholder` with the base list in the `l ++ [u, a]`
normal form that `simp` produces inside `handleSubmit`. -/
theorem streamRun_placeholder2 (chunks : List String) (l : List ChatMessage) (u : ChatMessage) :
    streamRun (l ++ [u, { role := Role.assistant, content := "" }]) "" chunks =
      (l ++ [u, { role := Role.assistant, content := concatChunks chunks }],
       concatChunks chunks) := by
  have h := streamRun_placeholder chunks (l ++ [u])
  simpa using h

theorem dropLast_append_two {α : Type} (l : List α) (u a : α) :
    (l ++ [u, a]).dropLast = l ++ [u] := by
  have h : l ++ [u, a] = (l ++ [u]) ++ [a] := by simp
  rw [h, List.dropLast_concat]

/-- Claim C4: after each received chunk the trailing assistant message's
content equals the concatenation of all chunks received so far (applied
in arrival order with no reordering or coalescing), and streaming
["He", "llo", "!"] yields final content "Hello!" with exactly the two
intermediate partial states "He" and "Hello" before completion. -/
theorem stream_chunks_in_order (base : List ChatMessage) (chunks : List String) (k : Nat) :
    trailingContent
        (streamRun (base ++ [{ role := Role.assistant, content := "" }]) "" (chunks.take k)).1 =
      some (concatChunks (chunks.take k)) ∧
    (streamRun (base ++ [{ role := Role.assistant, content := "" }]) "" (chunks.take k)).2 =
      concatChunks (chunks.take k) ∧
    streamTrace (base ++ [{ role := Role.assistant, content := "" }]) "" ["He", "llo", "!"] =
      ["He", "Hello", "Hello!"] := by
  refine ⟨?_, ?_, ?_⟩
  · rw [streamRun_placeholder]
    exact trailingContent_concat _ _
  · rw [streamRun_placeholder]
  · rw [streamTrace_msgs_irrel _ _ [{ role := Role.assistant, content := "" }]]
    decide

/-- Claim C5: a 2xx stream that completes with zero accumulated content
is treated as an authentication-likely failure with synthesized status
401: the empty assistant placeholder is removed (the user message
stays), the 401-classified invalid-API-key notification is pushed, and
the pending input is not cleared (no silent success). -/
theorem empty_stream_auth_failure (st : ChatState) (now : Nat) (chunks : List String)
    (ha : isBlank st.apiKey = false) (hu : isBlank st.userMessage = false)
    (hempty : concatChunks chunks = "") :
    (handleSubmit st now (FetchOutcome.ok true chunks StreamEnd.success)).state.messages =
      st.messages ++ [{ role := Role.user, content := st.userMessage }] ∧
    (handleSubmit st now (FetchOutcome.ok true chunks StreamEnd.success)).state.toasts =
      st.toasts ++ [{ id := toString now,
                      message := "Invalid API key. Please check your OpenAI API key and try again.",
                      ttype := ToastType.error }] ∧
    (handleSubmit st now (FetchOutcome.ok true chunks StreamEnd.success)).state.userMessage =
      st.userMessage := by
  refine ⟨?_, ?_, ?_⟩ <;>
    simp [handleSubmit, ha, hu, streamRun_placeholder2, hempty, addToast,
      parseErrorMessage_401, isBlank_empty, dropLast_append_two]

theorem empty_stream_auth_failure_witness :
    (handleSubmit ⟨[], "hi", "", "sk-test", "gpt-4", false, "", []⟩ 9
        (FetchOutcome.ok true ["", ""] StreamEnd.success)).state.messages =
      [{ role := Role.user, content := "hi" }] ∧
    (handleSubmit ⟨[], "hi", "", "sk-test", "gpt-4", false, "", []⟩ 9
        (FetchOutcome.ok true ["", ""] StreamEnd.success)).state.toasts =
      [{ id := toString 9,
         message := "Invalid API key. Please check your OpenAI API key and try again.",
         ttype := ToastType.error }] ∧
    (handleSubmit ⟨[], "hi", "", "sk-test", "gpt-4", false, "", []⟩ 9
        (FetchOutcome.ok true ["", ""] StreamEnd.success)).state.userMessage = "hi" :=
  empty_stream_auth_failure ⟨[], "hi", "", "sk-test", "gpt-4", false, "", []⟩ 9 ["", ""]
    (by decide) (by decide) (by decide)

/-- Claim C6 counterexample: a stream read failure whose text "boom"
contains none of "connection", "network" or "chunk" is nevertheless
classified as the authentication failure (the invalid-API-key error
notification), because the code passes synthesized status 401 to the
classifier in both branches — it is not classified as a generic
failure. -/
theorem streamFail_generic_text_still_auth :
    containsStr (lowerStr "boom") "connection" = false ∧
    containsStr (lowerStr "boom") "network" = false ∧
    containsStr (lowerStr "boom") "chunk" = false ∧
    (handleSubmit ⟨[], "hi", "", "sk-test", "gpt-4", false, "", []⟩ 5
        (FetchOutcome.ok true ["par"] (StreamEnd.failure (RawError.str "boom")))).state.toasts =
      [{ id := "5", message := "Invalid API key. Please check your OpenAI API key and try again.",
         ttype := ToastType.error }] := by
  decide

/-- Claim C6 (amended): every stream read failure mid-flight is
classified with synthesized status 401 and therefore always yields the
invalid-API-key error notification, whatever its textual description;
the connection/network/chunk substring test only swaps the error text
before classification and never changes the resulting notification.
The partial assistant message is removed. -/
theorem streamFail_always_auth (st : ChatState) (now : Nat) (chunks : List String) (e : RawError)
    (ha : isBlank st.apiKey = false) (hu : isBlank st.userMessage = false) :
    (handleSubmit st now (FetchOutcome.ok true chunks (StreamEnd.failure e))).state.toasts =
      st.toasts ++ [{ id := toString now,
                      message := "Invalid API key. Please check your OpenAI API key and try again.",
                      ttype := ToastType.error }] ∧
    (handleSubmit st now (FetchOutcome.ok true chunks (StreamEnd.failure e))).state.messages =
      st.messages ++ [{ role := Role.user, content := st.userMessage }] := by
  refine ⟨?_, ?_⟩ <;>
    simp [handleSubmit, ha, hu, streamRun_placeholder2, addToast, parseErrorMessage_401,
      dropLast_append_two]

theorem streamFail_always_auth_witness :
    (handleSubmit ⟨[], "hi", "", "sk-test", "gpt-4", false, "", []⟩ 6
        (FetchOutcome.ok true ["He"] (StreamEnd.failure (RawError.errObj "network down")))).state.toasts =
      [{ id := toString 6,
         message := "Invalid API key. Please check your OpenAI API key and try again.",
         ttype := ToastType.error }] ∧
    (handleSubmit ⟨[], "hi", "", "sk-test", "gpt-4", false, "", []⟩ 6
        (FetchOutcome.ok true ["He"] (StreamEnd.failure (RawError.errObj "network down")))).state.messages =
      [{ role := Role.user, content := "hi" }] :=
  streamFail_always_auth ⟨[], "hi", "", "sk-test", "gpt-4", false, "", []⟩ 6 ["He"]
    (RawError.errObj "network down") (by decide) (by decide)

/-- The message list contains no empty assistant placeholder. -/
def noEmptyAssistant (msgs : List ChatMessage) : Prop :=
  ∀ m ∈ msgs, m.role = Role.assistant → m.content ≠ ""

/-- Whether the outcome's 2xx response yields a stream reader
(`response.body?.getReader()`); vacuously true for non-2xx outcomes. -/
def outcomeHasReader : FetchOutcome → Bool
  | FetchOutcome.ok b _ _ => b
  | _ => true

theorem noEmptyAssistant_append (l : List ChatMessage) (m : ChatMessage)
    (hl : noEmptyAssistant l) (hm : m.role = Role.assistant → m.content ≠ "") :
    noEmptyAssistant (l ++ [m]) := by
  intro x hx hrole
  rcases List.mem_append.mp hx with h | h
  · exact hl x h hrole
  · have hx2 := List.mem_singleton.mp h
    subst hx2
    exact hm hrole

/-- Claim C7 counterexample: a valid submit whose 2xx response yields no
stream reader (`response.body` is null) completes the exchange — the
in-flight flag is cleared and the pending input is cleared — yet leaves
an empty assistant placeholder in the message list. -/
theorem noReader_leaves_empty_placeholder :
    (handleSubmit ⟨[], "hi", "", "sk-test", "gpt-4", false, "", []⟩ 5
        (FetchOutcome.ok false [] StreamEnd.success)).state.messages =
      [{ role := Role.user, content := "hi" }, { role := Role.assistant, content := "" }] ∧
    (handleSubmit ⟨[], "hi", "", "sk-test", "gpt-4", false, "", []⟩ 5
        (FetchOutcome.ok false [] StreamEnd.success)).state.isLoading = false ∧
    (handleSubmit ⟨[], "hi", "", "sk-test", "gpt-4", false, "", []⟩ 5
        (FetchOutcome.ok false [] StreamEnd.success)).state.userMessage = "" ∧
    ((handleSubmit ⟨[], "hi", "", "sk-test", "gpt-4", false, "", []⟩ 5
        (FetchOutcome.ok false [] StreamEnd.success)).state.messages.any
      (fun m => m.role == Role.assistant && m.content == "")) = true := by
  decide

/-- Claim C7 (amended): provided the 2xx response yields a stream
reader, every completed exchange leaves a message list with no empty
assistant placeholder: the appended assistant message is either filled
with non-blank streamed content or removed before returning to Idle
(when the response has no readable body, the placeholder is left in
place, which is the excluded case). -/
theorem no_orphan_placeholder (st : ChatState) (now : Nat) (outcome : FetchOutcome)
    (hinit : noEmptyAssistant st.messages)
    (hr : outcomeHasReader outcome = true) :
    noEmptyAssistant (handleSubmit st now outcome).state.messages := by
  by_cases ha : isBlank st.apiKey = true
  · simpa [handleSubmit, ha] using hinit
  by_cases hu : isBlank st.userMessage = true
  · simpa [handleSubmit, ha, hu] using hinit
  have huser : noEmptyAssistant
      (st.messages ++ [{ role := Role.user, content := st.userMessage }]) :=
    noEmptyAssistant_append _ _ hinit (by intro h; simp at h)
  cases outcome with
  | transportFail e =>
    simpa [handleSubmit, ha, hu] using hinit
  | httpError status statusText body =>
    simpa [handleSubmit, ha, hu] using hinit
  | ok b chunks ending =>
    have hb : b = true := hr
    subst hb
    cases ending with
    | success =>
      cases hcb : isBlank (concatChunks chunks) with
      | true =>
        simpa [handleSubmit, ha, hu, streamRun_placeholder2, hcb, dropLast_append_two]
          using huser
      | false =>
        have hne : concatChunks chunks ≠ "" := by
          intro h0
          rw [h0] at hcb
          exact absurd isBlank_empty (by simp [hcb])
        have hmsg :
            (handleSubmit st now (FetchOutcome.ok true chunks StreamEnd.success)).state.messages =
              (st.messages ++ [{ role := Role.user, content := st.userMessage }]) ++
                [{ role := Role.assistant, content := concatChunks chunks }] := by
          simp [handleSubmit, ha, hu, streamRun_placeholder2, hcb]
        rw [hmsg]
        exact noEmptyAssistant_append _ _ huser (fun _ => hne)
    | failure e =>
      simpa [handleSubmit, ha, hu, streamRun_placeholder2, dropLast_append_two] using huser

theorem no_orphan_placeholder_witness :
    noEmptyAssistant (handleSubmit ⟨[], "hi", "", "sk-test", "gpt-4", false, "", []⟩ 4
        (FetchOutcome.ok true ["Hey"] StreamEnd.success)).state.messages :=
  no_orphan_placeholder ⟨[], "hi", "", "sk-test", "gpt-4", false, "", []⟩ 4
    (FetchOutcome.ok true ["Hey"] StreamEnd.success) (by simp [noEmptyAssistant]) rfl

/-- Claim C8 counterexample: a submit invoked while the in-flight flag
(`isLoading`) is true is not rejected by `handleSubmit`: it issues an
HTTP request and mutates the conversation state. -/
theorem inflight_submit_not_rejected :
    (⟨[], "hi", "", "sk-test", "gpt-4", true, "", []⟩ : ChatState).isLoading = true ∧
    (handleSubmit ⟨[], "hi", "", "sk-test", "gpt-4", true, "", []⟩ 7
        (FetchOutcome.transportFail (RawError.str "x"))).request =
      some { developer_message := "You are a helpful assistant.", user_message := "hi",
             model := "gpt-4", api_key := "sk-test" } ∧
    (handleSubmit ⟨[], "hi", "", "sk-test", "gpt-4", true, "", []⟩ 7
        (FetchOutcome.transportFail (RawError.str "x"))).state ≠
      (⟨[], "hi", "", "sk-test", "gpt-4", true, "", []⟩ : ChatState) := by
  decide

/-- Claim C8 (amended): the in-flight guard lives in the UI, not in the
state machine: the Send control is disabled whenever the in-flight flag
is true, so no second submit can be initiated through the UI, while
`handleSubmit` itself performs no in-flight check. -/
theorem submit_disabled_when_inflight (st : ChatState) (h : st.isLoading = true) :
    submitDisabled st = true := by
  simp [submitDisabled, h]

theorem submit_disabled_when_inflight_witness :
    submitDisabled ⟨[], "hi", "", "sk-test", "gpt-4", true, "", []⟩ = true :=
  submit_disabled_when_inflight ⟨[], "hi", "", "sk-test", "gpt-4", true, "", []⟩ rfl

/-- Claim C9 counterexample: two toasts pushed at the same clock
millisecond receive the same id "5", so two distinct active
notifications share an id and dismissal-by-id removes both of them, not
exactly the intended one. -/
theorem same_millisecond_toast_ids_collide :
    addToast (addToast [] 5 "first" ToastType.info) 5 "second" ToastType.warning =
      [{ id := "5", message := "first", ttype := ToastType.info },
       { id := "5", message := "second", ttype := ToastType.warning }] ∧
    removeToast (addToast (addToast [] 5 "first" ToastType.info) 5 "second" ToastType.warning)
        "5" = [] := by
  decide

/-- Claim C9 (amended): a toast's id is exactly the push timestamp, so
when a push's timestamp differs from the id of every active
notification, the new id is unique among active notifications and
dismissal by that id removes exactly the newly pushed toast. -/
theorem toast_dismiss_exact (toasts : List Toast) (now : Nat) (msg : String) (ty : ToastType)
    (h : ∀ t ∈ toasts, t.id ≠ toString now) :
    removeToast (addToast toasts now msg ty) (toString now) = toasts ∧
    (addToast toasts now msg ty).filter (fun t => t.id == toString now) =
      [{ id := toString now, message := msg, ttype := ty }] := by
  have h1 : List.filter (fun t => t.id != toString now) toasts = toasts :=
    List.filter_eq_self.mpr (fun t ht => by simp [h t ht])
  have h2 : List.filter (fun t => t.id == toString now) toasts = [] :=
    List.filter_eq_nil_iff.mpr (fun t ht => by simp [h t ht])
  constructor
  · simp [removeToast, addToast, h1]
  · simp [addToast, h2]

theorem toast_dismiss_exact_witness :
    removeToast
        (addToast [{ id := "3", message := "a", ttype := ToastType.info }] 5 "b" ToastType.success)
        (toString 5) =
      [{ id := "3", message := "a", ttype := ToastType.info }] ∧
    (addToast [{ id := "3", message := "a", ttype := ToastType.info }] 5 "b"
          ToastType.success).filter (fun t => t.id == toString 5) =
      [{ id := toString 5, message := "b", ttype := ToastType.success }] :=
  toast_dismiss_exact [{ id := "3", message := "a", ttype := ToastType.info }] 5 "b"
    ToastType.success (by decide)

/-- Claim C10: a 2xx stream whose accumulated content is blank (empty or
whitespace-only) is treated exactly like the zero-content stream — the
whole submit result is identical to the zero-chunk run, so the assistant
placeholder is removed and the 401-classified error notification is
pushed — while the success notification and the clearing of the pending
input occur exactly when the content has a non-whitespace character. -/
theorem whitespace_stream_like_empty (st : ChatState) (now : Nat) (chunks : List String)
    (ha : isBlank st.apiKey = false) (hu : isBlank st.userMessage = false) :
    (isBlank (concatChunks chunks) = true →
       handleSubmit st now (FetchOutcome.ok true chunks StreamEnd.success) =
         handleSubmit st now (FetchOutcome.ok true [] StreamEnd.success)) ∧
    (isBlank (concatChunks chunks) = false →
       (handleSubmit st now (FetchOutcome.ok true chunks StreamEnd.success)).state.userMessage =
           "" ∧
       (handleSubmit st now (FetchOutcome.ok true chunks StreamEnd.success)).state.toasts =
         st.toasts ++ [{ id := toString now, message := "Message sent successfully!",
                         ttype := ToastType.success }]) := by
  constructor
  · intro hb
    simp [handleSubmit, ha, hu, streamRun_placeholder2, hb, isBlank_empty,
      dropLast_append_two, concatChunks]
  · intro hb
    refine ⟨?_, ?_⟩ <;>
      simp [handleSubmit, ha, hu, streamRun_placeholder2, hb, addToast]

theorem whitespace_stream_like_empty_witness :
    isBlank (concatChunks [" ", "\t"]) = true ∧
    handleSubmit ⟨[], "hi", "", "sk-test", "gpt-4", false, "", []⟩ 3
        (FetchOutcome.ok true [" ", "\t"] StreamEnd.success) =
      handleSubmit ⟨[], "hi", "", "sk-test", "gpt-4", false, "", []⟩ 3
        (FetchOutcome.ok true [] StreamEnd.success) :=
  ⟨by decide,
   (whitespace_stream_like_empty ⟨[], "hi", "", "sk-test", "gpt-4", false, "", []⟩ 3
      [" ", "\t"] (by decide) (by decide)).1 (by decide)⟩
